import Mathlib

/-!
Shallow embedding of the SkyCast AI weather dashboard's normalization and
AI-orchestration layer (weatherService, geminiService, and the App component's
calling code), with theorems checking the specification's claims against it.

Modelling conventions:
* numbers that are IEEE doubles in the source are rationals (ℚ); WMO condition
  codes and the is-day flag are nonnegative integers (Nat);
* fallible operations return `Except`; upstream HTTP responses, the AI
  provider's responses, and the Date-parsing environment are passed in as
  explicit parameters (`ApiResult`, `Except`, `dateMs : String → Int`);
* JavaScript string operations are modelled on the character list (`.data`):
  `t.startsWith(c)` as `c.data.isPrefixOf t.data`, `s.includes(p)` as a
  tails-based search, `s.trim().split(' ')` as `jsSplit ' ' (jsTrim s.data)`.
-/

namespace SkyCast

/-- The source's `Unit` enum: requested temperature-unit system. -/
inductive Unit where
  | celsius
  | fahrenheit
deriving DecidableEq

/-- The `const suffix = isDay ? 'd' : 'n'` step of `getIconCode`: JavaScript
truthiness of the numeric is-day flag (nonzero = day). -/
def daySuffix (isDay : Nat) : String := if isDay ≠ 0 then "d" else "n"

/-- Mirrors `getIconCode` (weatherService): maps a WMO weather code and an
is-day flag to an OWM-style icon code via a chain of range tests, falling back
to the clear icon `01` with the day/night suffix. -/
def getIconCode (wmoCode : Nat) (isDay : Nat) : String :=
  if wmoCode = 0 then "01" ++ daySuffix isDay
  else if wmoCode = 1 then "02" ++ daySuffix isDay
  else if wmoCode = 2 then "03" ++ daySuffix isDay
  else if wmoCode = 3 then "04" ++ daySuffix isDay
  else if wmoCode = 45 ∨ wmoCode = 48 then "50" ++ daySuffix isDay
  else if 51 ≤ wmoCode ∧ wmoCode ≤ 57 then "09" ++ daySuffix isDay
  else if 61 ≤ wmoCode ∧ wmoCode ≤ 67 then "10" ++ daySuffix isDay
  else if 80 ≤ wmoCode ∧ wmoCode ≤ 82 then "09" ++ daySuffix isDay
  else if (71 ≤ wmoCode ∧ wmoCode ≤ 77) ∨ (85 ≤ wmoCode ∧ wmoCode ≤ 86) then "13" ++ daySuffix isDay
  else if 95 ≤ wmoCode ∧ wmoCode ≤ 99 then "11" ++ daySuffix isDay
  else "01" ++ daySuffix isDay

/-- The fixed enumeration of icon codes the UI understands: each condition
family (clear, mainly clear, partly cloudy, overcast, drizzle/showers, rain,
thunderstorm, snow, fog) in a day and a night variant. -/
def iconEnum : List String :=
  ["01d", "01n", "02d", "02n", "03d", "03n", "04d", "04n",
   "09d", "09n", "10d", "10n", "11d", "11n", "13d", "13n", "50d", "50n"]

/-- The union of the documented WMO-code buckets handled by `getIconCode`
before its final fallback branch. -/
def inDocumentedBuckets (w : Nat) : Prop :=
  w = 0 ∨ w = 1 ∨ w = 2 ∨ w = 3 ∨ w = 45 ∨ w = 48 ∨
  (51 ≤ w ∧ w ≤ 57) ∨ (61 ≤ w ∧ w ≤ 67) ∨ (80 ≤ w ∧ w ≤ 82) ∨
  (71 ≤ w ∧ w ≤ 77) ∨ (85 ≤ w ∧ w ≤ 86) ∨ (95 ≤ w ∧ w ≤ 99)

instance (w : Nat) : Decidable (inDocumentedBuckets w) := by
  unfold inDocumentedBuckets
  infer_instance

/-- Mirrors the `codes` record literal inside `getDescription`
(weatherService), entry by entry in source order. -/
def descriptionTable : List (Nat × String) :=
  [(0, "Clear sky"),
   (1, "Mainly clear"), (2, "Partly cloudy"), (3, "Overcast"),
   (45, "Fog"), (48, "Depositing rime fog"),
   (51, "Light drizzle"), (53, "Moderate drizzle"), (55, "Dense drizzle"),
   (56, "Light freezing drizzle"), (57, "Dense freezing drizzle"),
   (61, "Slight rain"), (63, "Moderate rain"), (65, "Heavy rain"),
   (66, "Light freezing rain"), (67, "Heavy freezing rain"),
   (71, "Slight snow"), (73, "Moderate snow"), (75, "Heavy snow"),
   (77, "Snow grains"),
   (80, "Slight rain showers"), (81, "Moderate rain showers"), (82, "Violent rain showers"),
   (85, "Slight snow showers"), (86, "Heavy snow showers"),
   (95, "Thunderstorm"), (96, "Thunderstorm with slight hail"), (99, "Thunderstorm with heavy hail")]

/-- Mirrors `getDescription` (weatherService): record lookup with the literal
fallback `"Unknown"` for any code not in the table. Total, so it never throws. -/
def getDescription (wmoCode : Nat) : String :=
  match descriptionTable.lookup wmoCode with
  | some s => s
  | none => "Unknown"

/-- JavaScript `v || d` on a string value: `undefined` and the empty string
both fall through to the default. -/
def jsOrString (v : Option String) (d : String) : String :=
  match v with
  | some s => if s = "" then d else s
  | none => d

/-- JavaScript `s || d` where `s` is known to be a string. -/
def jsOrS (s d : String) : String := if s = "" then d else s

/-- One geocoding result row from the upstream provider. -/
structure GeoResult where
  id : Nat
  name : String
  country : Option String
  latitude : ℚ
  longitude : ℚ

/-- Mirrors `getCoordinates` (weatherService): the upstream `results` field is
either absent (`none`) or a list; absent or empty fails with the literal
not-found message, otherwise the first row is taken. -/
def getCoordinates (city : String) (results : Option (List GeoResult)) :
    Except String GeoResult :=
  match results with
  | none => .error ("City '" ++ city ++ "' not found.")
  | some [] => .error ("City '" ++ city ++ "' not found.")
  | some (r :: _) => .ok r

/-- The request parameters `getCurrentWeather` / `getForecast` send to the
Open-Meteo forecast endpoint (the claim-relevant subset, verbatim strings). -/
structure OpenMeteoParams where
  current : Option String
  daily : Option String
  hourly : Option String
  temperature_unit : String
  wind_speed_unit : String
  timezone : String

/-- The parameters of the primary weather request in `getCurrentWeather`. -/
def currentWeatherParams (unit : Unit) : OpenMeteoParams :=
  { current := some "temperature_2m,relative_humidity_2m,apparent_temperature,is_day,precipitation,rain,showers,snowfall,weather_code,cloud_cover,wind_speed_10m,wind_direction_10m,surface_pressure,dew_point_2m",
    daily := some "sunrise,sunset,uv_index_max",
    hourly := none,
    temperature_unit := if unit = Unit.fahrenheit then "fahrenheit" else "celsius",
    wind_speed_unit := "ms",
    timezone := "auto" }

/-- The parameters of the weather request in `getForecast`. -/
def forecastParams (unit : Unit) : OpenMeteoParams :=
  { current := none,
    daily := some "weather_code,temperature_2m_max,temperature_2m_min,sunrise,sunset,precipitation_probability_max",
    hourly := some "temperature_2m,weather_code,is_day,precipitation_probability",
    temperature_unit := if unit = Unit.fahrenheit then "fahrenheit" else "celsius",
    wind_speed_unit := "ms",
    timezone := "auto" }

/-- The `current` block of the Open-Meteo response consumed by
`getCurrentWeather`. -/
structure RawCurrent where
  time : String
  temperature_2m : ℚ
  relative_humidity_2m : ℚ
  apparent_temperature : ℚ
  is_day : Nat
  precipitation : ℚ
  weather_code : Nat
  cloud_cover : ℚ
  wind_speed_10m : ℚ
  wind_direction_10m : ℚ
  surface_pressure : ℚ
  dew_point_2m : ℚ

/-- The `daily` block of the Open-Meteo response consumed by
`getCurrentWeather`. -/
structure RawDailyToday where
  sunrise : List String
  sunset : List String
  uv_index_max : List ℚ

/-- The Open-Meteo weather response body consumed by `getCurrentWeather`. -/
structure RawWeatherResp where
  current : RawCurrent
  daily : RawDailyToday
  utc_offset_seconds : Int

/-- The `current` block of the air-quality response. -/
structure RawAqiCurrent where
  us_aqi : ℚ
  pm10 : ℚ
  pm2_5 : ℚ
  carbon_monoxide : ℚ
  nitrogen_dioxide : ℚ
  sulphur_dioxide : ℚ
  ozone : ℚ

structure Coord where
  lon : ℚ
  lat : ℚ

structure WeatherDesc where
  id : Nat
  main : String
  description : String
  icon : String

structure MainBlock where
  temp : ℚ
  feels_like : ℚ
  temp_min : ℚ
  temp_max : ℚ
  pressure : ℚ
  humidity : ℚ

structure WindBlock where
  speed : ℚ
  deg : ℚ

structure CloudsBlock where
  all : ℚ

structure SysBlock where
  type : Nat
  id : Nat
  country : String
  sunrise : ℚ
  sunset : ℚ

structure AqiBlock where
  us_aqi : ℚ
  pm2_5 : ℚ
  pm10 : ℚ
  co : ℚ
  no2 : ℚ
  so2 : ℚ
  o3 : ℚ

/-- The normalized snapshot type (`CurrentWeather` in types.ts), restricted to
the fields the service actually populates. `dt` keeps the raw upstream time
value, exactly as the source assigns `current.time` to it. -/
structure CurrentWeather where
  coord : Coord
  weather : List WeatherDesc
  base : String
  main : MainBlock
  visibility : ℚ
  wind : WindBlock
  clouds : CloudsBlock
  dt : String
  sys : SysBlock
  uv_index : ℚ
  precipitation : ℚ
  dew_point : ℚ
  aqi : AqiBlock
  timezone : Int
  id : Nat
  name : String
  cod : Nat

/-- The snapshot literal `getCurrentWeather` returns on success, field by field.
`dateMs` stands for the runtime's `new Date(s).getTime()` (milliseconds). -/
def buildCurrentWeather (dateMs : String → Int) (location : GeoResult)
    (resp : RawWeatherResp) (aqi : RawAqiCurrent) : CurrentWeather :=
  let current := resp.current
  let daily := resp.daily
  { coord := { lon := location.longitude, lat := location.latitude },
    weather := [{ id := current.weather_code,
                  main := getDescription current.weather_code,
                  description := getDescription current.weather_code,
                  icon := getIconCode current.weather_code current.is_day }],
    base := "stations",
    main := { temp := current.temperature_2m,
              feels_like := current.apparent_temperature,
              temp_min := current.temperature_2m,
              temp_max := current.temperature_2m,
              pressure := current.surface_pressure,
              humidity := current.relative_humidity_2m },
    visibility := 10000,
    wind := { speed := current.wind_speed_10m, deg := current.wind_direction_10m },
    clouds := { all := current.cloud_cover },
    dt := current.time,
    sys := { type := 1, id := 0,
             country := jsOrString location.country "XX",
             sunrise := (dateMs (daily.sunrise.getD 0 "") : ℚ) / 1000,
             sunset := (dateMs (daily.sunset.getD 0 "") : ℚ) / 1000 },
    uv_index := daily.uv_index_max.getD 0 0,
    precipitation := current.precipitation,
    dew_point := current.dew_point_2m,
    aqi := { us_aqi := aqi.us_aqi, pm2_5 := aqi.pm2_5, pm10 := aqi.pm10,
             co := aqi.carbon_monoxide, no2 := aqi.nitrogen_dioxide,
             so2 := aqi.sulphur_dioxide, o3 := aqi.ozone },
    timezone := resp.utc_offset_seconds,
    id := location.id,
    name := location.name,
    cod := 200 }

/-- Mirrors `getCurrentWeather` (weatherService): geocode, then join the
parallel weather and air-quality responses; any error is rethrown with
`error.message || 'Failed to fetch weather data'`. The `unit` argument only
shapes the request parameters (`currentWeatherParams`), never the body. -/
def getCurrentWeather (dateMs : String → Int) (city : String) (_apiKey : String)
    (_unit : Unit) (geo : Option (List GeoResult))
    (weatherResp : Except String RawWeatherResp)
    (aqiResp : Except String RawAqiCurrent) : Except String CurrentWeather :=
  match getCoordinates city geo with
  | .error m => .error (jsOrS m "Failed to fetch weather data")
  | .ok location =>
    match weatherResp, aqiResp with
    | .ok w, .ok a => .ok (buildCurrentWeather dateMs location w a)
    | .error m, _ => .error (jsOrS m "Failed to fetch weather data")
    | .ok _, .error m => .error (jsOrS m "Failed to fetch weather data")

/-- The `daily` block of the Open-Meteo response consumed by `getForecast`. -/
structure RawDailyForecast where
  time : List String
  weather_code : List Nat
  temperature_2m_max : List ℚ
  temperature_2m_min : List ℚ
  sunrise : List String
  sunset : List String
  precipitation_probability_max : Option (List ℚ)

/-- The `hourly` block of the Open-Meteo response consumed by `getForecast`. -/
structure RawHourlyForecast where
  time : List String
  temperature_2m : List ℚ
  weather_code : List Nat
  is_day : List Nat
  precipitation_probability : Option (List ℚ)

/-- The Open-Meteo response body consumed by `getForecast`. -/
structure RawForecastResp where
  daily : RawDailyForecast
  hourly : RawHourlyForecast
  utc_offset_seconds : Int

structure ForecastMain where
  temp : ℚ
  feels_like : ℚ
  temp_min : ℚ
  temp_max : ℚ
  pressure : ℚ
  sea_level : ℚ
  grnd_level : ℚ
  humidity : ℚ
  temp_kf : ℚ

structure ForecastWind where
  speed : ℚ
  deg : ℚ
  gust : ℚ

/-- One daily entry of the forecast list (`ForecastItem` in types.ts). -/
structure ForecastItem where
  dt : Int
  main : ForecastMain
  weather : List WeatherDesc
  clouds : CloudsBlock
  wind : ForecastWind
  visibility : ℚ
  pop : ℚ
  dt_txt : String

/-- One hourly entry (`HourlyItem` in types.ts). -/
structure HourlyItem where
  dt : ℚ
  temp : ℚ
  weather : List WeatherDesc
  pop : Option ℚ

/-- JavaScript `v || 0` on an optionally-present number. -/
def jsOrQ (v : Option ℚ) (d : ℚ) : ℚ :=
  match v with
  | some x => if x = 0 then d else x
  | none => d

/-- The body of `getForecast`'s daily loop at index `i`: `dt` is
`Math.floor(getTime() / 1000) + 43200` (floor division of milliseconds),
temperature is the max/min midpoint, feels-like reuses the max, and
pressure/humidity are the literal placeholders. -/
def mkForecastItem (dateMs : String → Int) (daily : RawDailyForecast) (i : Nat) :
    ForecastItem :=
  { dt := (dateMs (daily.time.getD i "")).fdiv 1000 + 43200,
    main := { temp := (daily.temperature_2m_max.getD i 0 + daily.temperature_2m_min.getD i 0) / 2,
              feels_like := daily.temperature_2m_max.getD i 0,
              temp_min := daily.temperature_2m_min.getD i 0,
              temp_max := daily.temperature_2m_max.getD i 0,
              pressure := 1013,
              sea_level := 1013,
              grnd_level := 1013,
              humidity := 50,
              temp_kf := 0 },
    weather := [{ id := daily.weather_code.getD i 0,
                  main := getDescription (daily.weather_code.getD i 0),
                  description := getDescription (daily.weather_code.getD i 0),
                  icon := getIconCode (daily.weather_code.getD i 0) 1 }],
    clouds := { all := 0 },
    wind := { speed := 0, deg := 0, gust := 0 },
    visibility := 10000,
    pop := jsOrQ (daily.precipitation_probability_max.bind (fun l => l.get? i)) 0,
    dt_txt := daily.time.getD i "" ++ " 12:00:00" }

/-- The daily loop of `getForecast`: `for (i = 0; i < min(time.length, 5); i++)`. -/
def getForecastDaily (dateMs : String → Int) (daily : RawDailyForecast) :
    List ForecastItem :=
  (List.range (min daily.time.length 5)).map (mkForecastItem dateMs daily)

/-- Models `t.startsWith(currentHourStr)` on character lists. -/
def hourMatches (currentHourStr t : String) : Bool :=
  currentHourStr.data.isPrefixOf t.data

/-- The `foundIndex !== -1 ? foundIndex : 0` step of `getForecast`'s hourly
windowing (`findIndex` returning -1 is `findIdx? = none`). -/
def hourlyStartIndex (times : List String) (currentHourStr : String) : Nat :=
  match times.findIdx? (hourMatches currentHourStr) with
  | some i => i
  | none => 0

/-- The index set of `getForecast`'s hourly loop:
`for (i = startIndex; i < startIndex + 24 && i < time.length; i++)`. -/
def hourlyIndices (times : List String) (currentHourStr : String) : List Nat :=
  List.range' (hourlyStartIndex times currentHourStr)
    (min 24 (times.length - hourlyStartIndex times currentHourStr))

/-- The body of `getForecast`'s hourly loop at index `i`. -/
def mkHourlyItem (dateMs : String → Int) (hourly : RawHourlyForecast) (i : Nat) :
    HourlyItem :=
  { dt := (dateMs (hourly.time.getD i "") : ℚ) / 1000,
    temp := hourly.temperature_2m.getD i 0,
    weather := [{ id := hourly.weather_code.getD i 0,
                  main := getDescription (hourly.weather_code.getD i 0),
                  description := "",
                  icon := getIconCode (hourly.weather_code.getD i 0) (hourly.is_day.getD i 0) }],
    pop := hourly.precipitation_probability.bind (fun l => l.get? i) }

/-- The hourly loop of `getForecast`, producing its `hourlyList`. -/
def getForecastHourly (dateMs : String → Int) (hourly : RawHourlyForecast)
    (currentHourStr : String) : List HourlyItem :=
  (hourlyIndices hourly.time currentHourStr).map (mkHourlyItem dateMs hourly)

structure CityBlock where
  id : Nat
  name : String
  coord : Coord
  country : Option String
  population : Nat
  timezone : Int
  sunrise : Nat
  sunset : Nat

/-- The forecast response the service returns (`ForecastResponse` in types.ts). -/
structure ForecastResponse where
  cod : String
  message : ℚ
  cnt : Nat
  list : List ForecastItem
  hourly : List HourlyItem
  city : CityBlock

/-- Mirrors `getForecast` (weatherService): geocode, fetch, then assemble the
daily and hourly lists; `currentHourStr` stands for
`new Date().toISOString().slice(0, 13)`. -/
def getForecast (dateMs : String → Int) (city : String) (_apiKey : String)
    (_unit : Unit) (geo : Option (List GeoResult))
    (resp : Except String RawForecastResp) (currentHourStr : String) :
    Except String ForecastResponse :=
  match getCoordinates city geo with
  | .error m => .error (jsOrS m "Failed to fetch forecast data")
  | .ok location =>
    match resp with
    | .error m => .error (jsOrS m "Failed to fetch forecast data")
    | .ok raw =>
      let list := getForecastDaily dateMs raw.daily
      .ok { cod := "200",
            message := 0,
            cnt := list.length,
            list := list,
            hourly := getForecastHourly dateMs raw.hourly currentHourStr,
            city := { id := location.id, name := location.name,
                      coord := { lat := location.latitude, lon := location.longitude },
                      country := location.country, population := 0,
                      timezone := raw.utc_offset_seconds, sunrise := 0, sunset := 0 } }

/-- An error thrown by an AI-provider call, with the fields the catch blocks
inspect (`error.status`, `error.code`, `error.message`). -/
structure ApiError where
  status : Option String
  code : Option Nat
  message : Option String

/-- Outcome of an awaited AI-provider call: resolved payload or thrown error. -/
inductive ApiResult (α : Type) where
  | ok : α → ApiResult α
  | err : ApiError → ApiResult α

/-- Models JavaScript `s.includes(pat)`. -/
def strIncludes (s pat : String) : Bool :=
  s.data.tails.any (fun t => pat.data.isPrefixOf t)

/-- The quota test in `generateWeatherScene`'s catch block:
`error.status === 'RESOURCE_EXHAUSTED' || error.code === 429 ||
error.message?.includes('429')`. -/
def isSceneQuotaError (e : ApiError) : Bool :=
  e.status == some "RESOURCE_EXHAUSTED" || e.code == some 429 ||
    (match e.message with
     | some m => strIncludes m "429"
     | none => false)

/-- Mirrors `generateWeatherScene` (geminiService). The response payload is the
list of candidate parts, each carrying its optional `inlineData` payload; the
first inline image is returned with the data-URI prefix. Quota exhaustion
yields `(none, true)`; every other failure yields `(none, false)`. -/
def generateWeatherScene (hasApiKey : Bool)
    (resp : ApiResult (List (Option String))) : Option String × Bool :=
  if !hasApiKey then (none, false)
  else
    match resp with
    | .ok parts =>
      match parts.findSome? id with
      | some data => (some ("data:image/png;base64," ++ data), false)
      | none => (none, false)
    | .err e => if isSceneQuotaError e then (none, true) else (none, false)

/-- The quota test in `streamWeatherInsight`'s catch block:
`error.status === 'RESOURCE_EXHAUSTED' || error.code === 429`. -/
def isInsightQuotaError (e : ApiError) : Bool :=
  e.status == some "RESOURCE_EXHAUSTED" || e.code == some 429

/-- The chunk emitted when the AI credential is absent. -/
def missingKeyMsg : String :=
  "Gemini API Key is missing. Please add it to your environment variables."

/-- The single fixed apology chunk emitted on quota exhaustion. -/
def quotaApologyMsg : String :=
  "I'm currently receiving too many requests. Please check back in a moment for your smart insights!"

/-- The single fixed chunk emitted on any other failure. -/
def offlineMsg : String :=
  "Gemini is currently offline due to atmospheric interference (API Error)."

/-- Mirrors `streamWeatherInsight` (geminiService) as the sequence of `onChunk`
invocations it performs. A resolved stream is the list of per-chunk optional
texts, of which the truthy ones (present and nonempty) are emitted in order; a
thrown call emits exactly one fixed message chosen by the quota test. -/
def streamWeatherInsight (hasApiKey : Bool)
    (resp : ApiResult (List (Option String))) : List String :=
  if !hasApiKey then [missingKeyMsg]
  else
    match resp with
    | .ok chunks => (chunks.filterMap id).filter (fun t => t ≠ "")
    | .err e => if isInsightQuotaError e then [quotaApologyMsg] else [offlineMsg]

/-- The structured-output payload of the intent-parsing call. -/
structure ParsedQuery where
  city : String
  intent : Option String

/-- Mirrors `parseSearchQuery` (geminiService). The response is either a thrown
error, a resolved call whose `text` was falsy (`.ok none`), or a resolved call
whose text parsed as JSON (`.ok (some p)`); every non-success path returns the
original query as the city with no intent. -/
def parseSearchQuery (hasApiKey : Bool) (query : String)
    (resp : ApiResult (Option ParsedQuery)) : ParsedQuery :=
  if !hasApiKey then { city := query, intent := none }
  else
    match resp with
    | .ok (some p) => p
    | .ok none => { city := query, intent := none }
    | .err _ => { city := query, intent := none }

/-- JavaScript `String.prototype.trim` on a character list. -/
def jsTrim (l : List Char) : List Char :=
  ((l.dropWhile Char.isWhitespace).reverse.dropWhile Char.isWhitespace).reverse

/-- JavaScript `split(sep)` on a character list: every occurrence of the
separator ends a field, so adjacent separators produce empty fields. -/
def jsSplit (sep : Char) : List Char → List (List Char)
  | [] => [[]]
  | c :: t =>
    match jsSplit sep t with
    | [] => [[c]]
    | h :: r => if c = sep then [] :: h :: r else (c :: h) :: r

/-- The heuristic in `handleSearch` (App) that gates the AI parse:
`query.trim().split(' ').length > 2 || query.length > 20`. -/
def needsAiParse (query : String) : Prop :=
  2 < (jsSplit ' ' (jsTrim query.data)).length ∨ 20 < query.length

instance : DecidablePred needsAiParse := fun q => by
  unfold needsAiParse
  infer_instance

/-- Mirrors `handleSearch` (App) after the empty-query guard: returns the
target city, the intent passed on to `fetchData`, and whether the AI parse
was invoked. `parsed` is what `parseSearchQuery` would return if invoked. -/
def handleSearch (query : String) (parsed : ParsedQuery) :
    String × String × Bool :=
  if needsAiParse query then (parsed.city, parsed.intent.getD "", true)
  else (query, "", false)

/-- The weather-state update `fetchData` (App) performs once the combined
weather/forecast promise settles: success installs both payloads with no
error; failure surfaces `err.message || fallback` and clears both payloads. -/
def fetchDataApply (α β : Type) (result : Except String (α × β)) :
    Option α × Option β × Option String :=
  match result with
  | .ok (w, f) => (some w, some f, none)
  | .error msg =>
    (none, none, some (jsOrS msg "Could not find weather data. Please try another city."))

/-- The scene-related slice of the App state. -/
structure SceneState where
  bgImage : Option String
  bgQuotaError : Bool
  retryCountdown : Nat

/-- The `.then` handler `fetchData` attaches to `generateWeatherScene`:
an image installs the background; a quota error raises the flag and starts the
86400-second countdown; any other empty result changes nothing. -/
def applySceneResult (s : SceneState) (result : Option String × Bool) :
    SceneState :=
  match result with
  | (some img, _) => { s with bgImage := some img, bgQuotaError := false }
  | (none, true) => { s with bgQuotaError := true, retryCountdown := 86400 }
  | (none, false) => s

/-- The success/quota handling inside `retryBackgroundGeneration` (App). -/
def applyRetryResult (s : SceneState) (result : Option String × Bool) :
    SceneState :=
  match result with
  | (some img, _) => { s with bgImage := some img, bgQuotaError := false, retryCountdown := 0 }
  | (none, true) => { s with bgQuotaError := true, retryCountdown := 86400 }
  | (none, false) => s

/-- The guard of `retryBackgroundGeneration` (App): a generation call is issued
only when a snapshot exists and the countdown has reached zero. -/
def retryIssuesCall (hasWeather : Bool) (retryCountdown : Nat) : Bool :=
  hasWeather && retryCountdown == 0

/-- The once-per-second countdown effect (App): decrements while positive. -/
def tickCountdown (n : Nat) : Nat := if 0 < n then n - 1 else n

/-! ## Shared helper lemmas -/

theorem lookup_eq_none_of_not_mem_keys (l : List (Nat × String)) (c : Nat)
    (h : c ∉ l.map Prod.fst) : l.lookup c = none := by
  induction l with
  | nil => rfl
  | cons p t ih =>
    obtain ⟨k, v⟩ := p
    simp only [List.map_cons, List.mem_cons, not_or] at h
    obtain ⟨h1, h2⟩ := h
    have hb : (c == k) = false := beq_eq_false_iff_ne.mpr h1
    simp [List.lookup, hb, ih h2]

theorem daySuffix_append_mem (p : String)
    (hp : p = "01" ∨ p = "02" ∨ p = "03" ∨ p = "04" ∨ p = "09" ∨ p = "10" ∨
          p = "11" ∨ p = "13" ∨ p = "50")
    (d : Nat) : p ++ daySuffix d ∈ iconEnum := by
  unfold daySuffix
  rcases hp with h | h | h | h | h | h | h | h | h <;> subst h <;> split <;> decide

/-! ## Claim theorems -/

/-- C1 counterexample: a WMO code outside all documented buckets, at night,
maps to the clear-night icon `"01n"`, not to the clear-day icon `"01d"` the
claim requires. -/
theorem getIconCode_unknown_night_ce :
    getIconCode 100 0 = "01n" ∧ getIconCode 100 0 ≠ "01d" := by decide

set_option maxHeartbeats 1000000 in
/-- C1 (amended): every icon code `getIconCode` produces lies in the fixed
enumeration, and every WMO code outside the documented buckets falls back to
the clear icon with the day/night suffix derived from the is-day flag
(`"01d"` by day, `"01n"` by night). -/
theorem getIconCode_enum_and_fallback :
    (∀ w d, getIconCode w d ∈ iconEnum) ∧
    (∀ w d, ¬ inDocumentedBuckets w →
      getIconCode w d = (if d ≠ 0 then "01d" else "01n")) := by
  constructor
  · intro w d
    unfold getIconCode
    split_ifs <;> exact daySuffix_append_mem _ (by tauto) d
  · intro w d h
    simp only [inDocumentedBuckets, not_or] at h
    obtain ⟨h0, h1, h2, h3, h45, h48, h51, h61, h80, h71, h85, h95⟩ := h
    unfold getIconCode
    rw [if_neg h0, if_neg h1, if_neg h2, if_neg h3, if_neg (not_or.mpr ⟨h45, h48⟩),
        if_neg h51, if_neg h61, if_neg h80, if_neg (not_or.mpr ⟨h71, h85⟩), if_neg h95]
    unfold daySuffix
    by_cases hd : d ≠ 0
    · rw [if_pos hd, if_pos hd]; decide
    · rw [if_neg hd, if_neg hd]; decide

/-- C1 witness: the fallback branch evaluated at the concrete out-of-bucket
code 40 at night. -/
theorem getIconCode_enum_and_fallback_witness :
    getIconCode 40 0 = (if (0 : Nat) ≠ 0 then "01d" else "01n") :=
  getIconCode_enum_and_fallback.2 40 0 (by decide)

/-- C3 counterexample: the description table has 28 entries, not the 30 the
claim states. -/
theorem descriptionTable_length_ce :
    descriptionTable.length = 28 ∧ descriptionTable.length ≠ 30 := by decide

/-- C3 (amended): the weather-code-to-description mapping is a direct lookup
table of 28 entries, returns the literal `"Unknown"` for any code not in the
table (and, being total, never throws); a snapshot built from an upstream
payload with condition code 61 and is-day 1 maps to icon `"10d"` and
description `"Slight rain"`. -/
theorem getDescription_table_spec :
    descriptionTable.length = 28 ∧
    (∀ c, c ∉ descriptionTable.map Prod.fst → getDescription c = "Unknown") ∧
    (∀ dateMs loc w a, w.current.weather_code = 61 → w.current.is_day = 1 →
      ((buildCurrentWeather dateMs loc w a).weather.map fun x => x.icon) = ["10d"] ∧
      ((buildCurrentWeather dateMs loc w a).weather.map fun x => x.description) = ["Slight rain"]) := by
  refine ⟨by decide, ?_, ?_⟩
  · intro c h
    unfold getDescription
    rw [lookup_eq_none_of_not_mem_keys _ _ h]
  · intro dateMs loc w a h61 hday
    have hicon : getIconCode 61 1 = "10d" := by decide
    have hdesc : getDescription 61 = "Slight rain" := by decide
    constructor <;> simp [buildCurrentWeather, h61, hday, hicon, hdesc]

/-- C3 witness: the fallback and the code-61 snapshot evaluated on a concrete
out-of-table code and a concrete literal payload (temp 22.5, code 61, is-day 1). -/
theorem getDescription_table_spec_witness :
    getDescription 42 = "Unknown" ∧
    ((buildCurrentWeather (fun _ => 0) ⟨1, "Paris", none, 0, 0⟩
        ⟨⟨"2024-05-01T12:00", 45/2, 50, 21, 1, 0, 61, 10, 3, 180, 1013, 12⟩, ⟨[], [], []⟩, 0⟩
        ⟨10, 5, 5, 1, 1, 1, 1⟩).weather.map fun x => x.icon) = ["10d"] :=
  ⟨getDescription_table_spec.2.1 42 (by decide),
   (getDescription_table_spec.2.2 (fun _ => 0) ⟨1, "Paris", none, 0, 0⟩
      ⟨⟨"2024-05-01T12:00", 45/2, 50, 21, 1, 0, 61, 10, 3, 180, 1013, 12⟩, ⟨[], [], []⟩, 0⟩
      ⟨10, 5, 5, 1, 1, 1, 1⟩ rfl rfl).1⟩

/-- C2: the hourly forecast window never exceeds 24 entries; when some
upstream timestamp matches the current hour by string prefix, the window
starts exactly at that matched index, every consumed upstream index is at or
after it, and the window truncates to the remaining hours when fewer than 24
remain. -/
theorem getForecast_hourly_window :
    (∀ times cur, (hourlyIndices times cur).length ≤ 24) ∧
    (∀ (dateMs : String → Int) hourly cur,
      (getForecastHourly dateMs hourly cur).length = (hourlyIndices hourly.time cur).length) ∧
    (∀ times cur j, times.findIdx? (hourMatches cur) = some j →
      hourlyStartIndex times cur = j ∧
      (hourlyIndices times cur).head? = some j ∧
      (∀ i ∈ hourlyIndices times cur, j ≤ i) ∧
      (times.length - j < 24 → (hourlyIndices times cur).length = times.length - j)) := by
  refine ⟨?_, ?_, ?_⟩
  · intro times cur
    unfold hourlyIndices
    rw [List.length_range']
    exact Nat.min_le_left _ _
  · intro dateMs hourly cur
    unfold getForecastHourly
    rw [List.length_map]
  · intro times cur j h
    have hj : j < times.length := (List.findIdx?_eq_some_iff_findIdx_eq.mp h).1
    have hs : hourlyStartIndex times cur = j := by unfold hourlyStartIndex; rw [h]
    refine ⟨hs, ?_, ?_, ?_⟩
    · unfold hourlyIndices
      rw [hs]
      have hmin : min 24 (times.length - j) ≠ 0 := by omega
      obtain ⟨m, hm⟩ := Nat.exists_eq_succ_of_ne_zero hmin
      rw [hm, List.range'_succ]
      rfl
    · intro i hi
      unfold hourlyIndices at hi
      rw [hs] at hi
      exact (List.mem_range'_1.mp hi).1
    · intro hlt
      unfold hourlyIndices
      rw [hs, List.length_range']
      omega

/-- C2 witness: a three-hour upstream list whose second timestamp matches the
current hour yields a window starting at index 1 with the remaining 2 hours. -/
theorem getForecast_hourly_window_witness :
    (hourlyIndices ["2024-05-01T00:00", "2024-05-01T01:00", "2024-05-01T02:00"]
      "2024-05-01T01").head? = some 1 ∧
    (hourlyIndices ["2024-05-01T00:00", "2024-05-01T01:00", "2024-05-01T02:00"]
      "2024-05-01T01").length = 2 := by
  have h := getForecast_hourly_window.2.2
    ["2024-05-01T00:00", "2024-05-01T01:00", "2024-05-01T02:00"] "2024-05-01T01" 1 (by decide)
  exact ⟨h.2.1, h.2.2.2 (by decide)⟩

/-- C4: every daily forecast entry has temperature equal to the midpoint of
that day's max and min, feels-like equal to the day's max, and the hard-coded
placeholders 1013 hPa pressure and 50% humidity. -/
theorem getForecastDaily_fields :
    ∀ (dateMs : String → Int) (daily : RawDailyForecast) (i : Nat)
      (h : i < (getForecastDaily dateMs daily).length),
      ((getForecastDaily dateMs daily).get ⟨i, h⟩).main.temp =
        (daily.temperature_2m_max.getD i 0 + daily.temperature_2m_min.getD i 0) / 2 ∧
      ((getForecastDaily dateMs daily).get ⟨i, h⟩).main.feels_like =
        daily.temperature_2m_max.getD i 0 ∧
      ((getForecastDaily dateMs daily).get ⟨i, h⟩).main.pressure = 1013 ∧
      ((getForecastDaily dateMs daily).get ⟨i, h⟩).main.humidity = 50 := by
  intro dateMs daily i h
  have hi : i < (List.range (min daily.time.length 5)).length := by
    simpa [getForecastDaily] using h
  have hget : (getForecastDaily dateMs daily).get ⟨i, h⟩ = mkForecastItem dateMs daily i := by
    simp [getForecastDaily, List.get_eq_getElem, List.getElem_map, List.getElem_range]
  rw [hget]
  exact ⟨rfl, rfl, rfl, rfl⟩

/-- C4 witness: a concrete one-day payload with max 20 and min 10 yields
temperature 15, feels-like 20, pressure 1013 and humidity 50. -/
theorem getForecastDaily_fields_witness :
    ((getForecastDaily (fun _ => 0) ⟨["2024-05-01"], [61], [20], [10], [], [], none⟩).get
        ⟨0, by decide⟩).main.temp = 15 ∧
    ((getForecastDaily (fun _ => 0) ⟨["2024-05-01"], [61], [20], [10], [], [], none⟩).get
        ⟨0, by decide⟩).main.feels_like = 20 ∧
    ((getForecastDaily (fun _ => 0) ⟨["2024-05-01"], [61], [20], [10], [], [], none⟩).get
        ⟨0, by decide⟩).main.pressure = 1013 ∧
    ((getForecastDaily (fun _ => 0) ⟨["2024-05-01"], [61], [20], [10], [], [], none⟩).get
        ⟨0, by decide⟩).main.humidity = 50 := by
  have h := getForecastDaily_fields (fun _ => 0)
    ⟨["2024-05-01"], [61], [20], [10], [], [], none⟩ 0 (by decide)
  refine ⟨?_, ?_, h.2.2.1, h.2.2.2⟩
  · rw [h.1]; norm_num
  · rw [h.2.1]; norm_num

/-- C5: on a thrown call that matches the quota test, `generateWeatherScene`
returns no image with `isQuotaError = true` (without raising, being total);
on any other thrown call it returns no image with `isQuotaError = false`;
the caller reacts to a quota result by raising the flag and starting the
86400-second countdown, and its retry handler issues no call while the
countdown is positive. -/
theorem generateScene_quota_spec :
    (∀ e, isSceneQuotaError e = true → generateWeatherScene true (.err e) = (none, true)) ∧
    (∀ e, isSceneQuotaError e = false → generateWeatherScene true (.err e) = (none, false)) ∧
    (∀ s, (applySceneResult s (none, true)).bgQuotaError = true ∧
          (applySceneResult s (none, true)).retryCountdown = 86400) ∧
    (∀ hw n, 0 < n → retryIssuesCall hw n = false) := by
  refine ⟨?_, ?_, ?_, ?_⟩
  · intro e h
    simp [generateWeatherScene, h]
  · intro e h
    simp [generateWeatherScene, h]
  · intro s
    exact ⟨rfl, rfl⟩
  · intro hw n h
    cases n with
    | zero => omega
    | succ m => simp [retryIssuesCall]

/-- C5 witness: a concrete resource-exhausted error yields `(none, true)`, a
concrete unrelated error yields `(none, false)`, and a retry during a running
countdown is not attempted. -/
theorem generateScene_quota_spec_witness :
    generateWeatherScene true (.err ⟨some "RESOURCE_EXHAUSTED", none, none⟩) = (none, true) ∧
    generateWeatherScene true (.err ⟨none, some 500, some "network down"⟩) = (none, false) ∧
    retryIssuesCall true 86400 = false :=
  ⟨generateScene_quota_spec.1 ⟨some "RESOURCE_EXHAUSTED", none, none⟩ (by decide),
   generateScene_quota_spec.2.1 ⟨none, some 500, some "network down"⟩ (by decide),
   generateScene_quota_spec.2.2.2 true 86400 (by decide)⟩

/-- C6: when the streaming call throws and matches the quota test,
`streamWeatherInsight` emits exactly the single fixed apology chunk; on any
other thrown call it emits exactly the single fixed offline chunk. Being a
total function into the emitted-chunk list, it never raises and issues no
further calls. -/
theorem streamInsight_failure_spec :
    (∀ e, isInsightQuotaError e = true →
      streamWeatherInsight true (.err e) = [quotaApologyMsg]) ∧
    (∀ e, isInsightQuotaError e = false →
      streamWeatherInsight true (.err e) = [offlineMsg]) := by
  constructor <;> intro e h <;> simp [streamWeatherInsight, h]

/-- C6 witness: a concrete 429 error yields exactly the apology chunk, a
concrete unrelated error yields exactly the offline chunk. -/
theorem streamInsight_failure_spec_witness :
    streamWeatherInsight true (.err ⟨none, some 429, none⟩) = [quotaApologyMsg] ∧
    streamWeatherInsight true (.err ⟨none, some 500, none⟩) = [offlineMsg] :=
  ⟨streamInsight_failure_spec.1 ⟨none, some 429, none⟩ (by decide),
   streamInsight_failure_spec.2 ⟨none, some 500, none⟩ (by decide)⟩

/-- C7: a query of at most two space-separated tokens and at most 20
characters is passed through verbatim as the city with no intent and without
invoking the AI parse; and `parseSearchQuery` returns the original query with
no intent on a thrown call, on a missing credential, and on a falsy response
text — never propagating an error. -/
theorem parseSearchQuery_passthrough_spec :
    (∀ q p, (jsSplit ' ' (jsTrim q.data)).length ≤ 2 → q.length ≤ 20 →
      handleSearch q p = (q, "", false)) ∧
    (∀ k q e, parseSearchQuery k q (.err e) = { city := q, intent := none }) ∧
    (∀ q r, parseSearchQuery false q r = { city := q, intent := none }) ∧
    (∀ q, parseSearchQuery true q (.ok none) = { city := q, intent := none }) := by
  refine ⟨?_, ?_, ?_, ?_⟩
  · intro q p h1 h2
    have hn : ¬ needsAiParse q := by
      unfold needsAiParse
      omega
    simp [handleSearch, hn]
  · intro k q e
    cases k <;> rfl
  · intro q r
    rfl
  · intro q
    rfl

/-- C7 witness: the single short token `"Paris"` is passed through verbatim
with no intent and no AI call, and a thrown parse returns the original query. -/
theorem parseSearchQuery_passthrough_witness :
    handleSearch "Paris" { city := "Nowhere", intent := some "x" } = ("Paris", "", false) ∧
    parseSearchQuery true "Paris" (.err ⟨none, none, none⟩) = { city := "Paris", intent := none } :=
  ⟨parseSearchQuery_passthrough_spec.1 "Paris" { city := "Nowhere", intent := some "x" }
      (by decide) (by decide),
   parseSearchQuery_passthrough_spec.2.1 true "Paris" ⟨none, none, none⟩⟩

theorem notFound_msg_ne_empty (city : String) :
    ("City '" ++ city ++ "' not found.") ≠ "" := by
  intro h
  have hlen := congrArg String.length h
  rw [String.length_append, String.length_append] at hlen
  have h6 : ("City '").length = 6 := by decide
  have h12 : ("' not found.").length = 12 := by decide
  have h0 : ("" : String).length = 0 := by decide
  rw [h6, h12, h0] at hlen
  omega

/-- C8: a geocode with zero upstream matches (absent or empty results) always
fails with the not-found error, one with matches always takes the first; the
not-found failure propagates through `getCurrentWeather` carrying its message;
and the caller's state update on any failure surfaces the upstream message and
clears both the current weather and the forecast, while success installs both. -/
theorem search_failure_spec :
    (∀ city, getCoordinates city none = .error ("City '" ++ city ++ "' not found.")) ∧
    (∀ city, getCoordinates city (some []) = .error ("City '" ++ city ++ "' not found.")) ∧
    (∀ city r rest, getCoordinates city (some (r :: rest)) = .ok r) ∧
    (∀ dateMs city k u wresp aresp,
      getCurrentWeather dateMs city k u none wresp aresp =
        .error ("City '" ++ city ++ "' not found.")) ∧
    (∀ msg, msg ≠ "" →
      fetchDataApply CurrentWeather ForecastResponse (.error msg) = (none, none, some msg)) ∧
    (∀ w f, fetchDataApply CurrentWeather ForecastResponse (.ok (w, f)) =
      (some w, some f, none)) := by
  refine ⟨fun city => rfl, fun city => rfl, fun city r rest => rfl, ?_, ?_, fun w f => rfl⟩
  · intro dateMs city k u wresp aresp
    simp [getCurrentWeather, getCoordinates, jsOrS, notFound_msg_ne_empty city]
  · intro msg h
    simp [fetchDataApply, jsOrS, h]

/-- C8 witness: a concrete failed fetch surfaces its message and clears both
weather payloads. -/
theorem search_failure_spec_witness :
    fetchDataApply CurrentWeather ForecastResponse (.error "City 'Atlantis' not found.") =
      (none, none, some "City 'Atlantis' not found.") :=
  search_failure_spec.2.2.2.2.1 "City 'Atlantis' not found." (by decide)

/-- C9: both the current-weather and the forecast request always ask for wind
speed in meters per second regardless of the requested temperature unit, the
snapshot copies the upstream meters-per-second reading unchanged, and the
response body of `getCurrentWeather` does not depend on the unit at all. -/
theorem wind_speed_policy :
    (∀ u, (currentWeatherParams u).wind_speed_unit = "ms") ∧
    (∀ u, (forecastParams u).wind_speed_unit = "ms") ∧
    (∀ dateMs loc w a,
      (buildCurrentWeather dateMs loc w a).wind.speed = w.current.wind_speed_10m) ∧
    (∀ dateMs city k u v geo wresp aresp,
      getCurrentWeather dateMs city k u geo wresp aresp =
        getCurrentWeather dateMs city k v geo wresp aresp) :=
  ⟨fun _ => rfl, fun _ => rfl, fun _ _ _ _ => rfl, fun _ _ _ _ _ _ _ _ => rfl⟩

/-- C10: every snapshot returned by the current-weather fetch has its min and
max temperature both equal to the current temperature, and its visibility is
the hard-coded constant 10000 meters. -/
theorem snapshot_min_max_visibility :
    ∀ dateMs loc w a,
      (buildCurrentWeather dateMs loc w a).main.temp_min = w.current.temperature_2m ∧
      (buildCurrentWeather dateMs loc w a).main.temp_max = w.current.temperature_2m ∧
      (buildCurrentWeather dateMs loc w a).main.temp = w.current.temperature_2m ∧
      (buildCurrentWeather dateMs loc w a).visibility = 10000 :=
  fun _ _ _ _ => ⟨rfl, rfl, rfl, rfl⟩

end SkyCast
